import Mathlib

/-! Verification of the AsciiBird terminal game (src/driver_comentarios-pt-br.c).
The C float arithmetic is modelled by exact rationals; the C float-to-int cast is
modelled by truncation toward zero; `rand()` is modelled by an explicit integer
argument in `[0, RAND_MAX]` with `RAND_MAX = INT_MAX` on the target platform. -/

/-- Gravitational constant from the source: `const float GRAV = 0.05`. -/
def GRAV : ℚ := 1/20

/-- Boost velocity from the source: `const float V0 = -0.5`. -/
def V0 : ℚ := -1/2

/-- Source constant `NUM_ROWS = 24`. -/
def NUM_ROWS : ℤ := 24

/-- Source constant `NUM_COLS = 80`. -/
def NUM_COLS : ℤ := 80

/-- Source constant `PIPE_RADIUS = 3`. -/
def PIPE_RADIUS : ℤ := 3

/-- Source constant `OPENING_WIDTH = 7`. -/
def OPENING_WIDTH : ℤ := 7

/-- Source constant `FLAPPY_COL = 10`. -/
def FLAPPY_COL : ℤ := 10

/-- Value of `INT_MAX` (= `RAND_MAX`) on the 32-bit-int target platform. -/
def INT_MAX : ℤ := 2147483647

/-- C cast from a rational value to `int`: truncation toward zero. -/
def ctrunc (q : ℚ) : ℤ := Int.tdiv q.num q.den

theorem ctrunc_eq_floor (q : ℚ) (h : 0 ≤ q) : ctrunc q = ⌊q⌋ := by
  have hn : 0 ≤ q.num := Rat.num_nonneg.mpr h
  have hd : 0 ≤ (q.den : ℤ) := Int.natCast_nonneg q.den
  rw [ctrunc, Int.tdiv_eq_ediv hn hd]
  exact Rat.floor_def.symm

theorem ctrunc_eq_ceil (q : ℚ) (h : q ≤ 0) : ctrunc q = ⌈q⌉ := by
  have key : ctrunc (-q) = ⌊-q⌋ := ctrunc_eq_floor (-q) (by linarith)
  have h2 : ctrunc (-q) = -ctrunc q := by
    rw [ctrunc, ctrunc, Rat.neg_num, Rat.neg_den, Int.neg_tdiv]
  rw [Int.floor_neg] at key
  omega

theorem ctrunc_intCast (n : ℤ) : ctrunc (n : ℚ) = n := by
  rw [ctrunc, Rat.num_intCast, Rat.den_intCast]
  simp [Int.tdiv_one n]

theorem ctrunc_mono {a b : ℚ} (h : a ≤ b) : ctrunc a ≤ ctrunc b := by
  rcases le_or_lt 0 a with ha | ha
  · rw [ctrunc_eq_floor a ha, ctrunc_eq_floor b (le_trans ha h)]
    exact Int.floor_le_floor h
  · rcases le_or_lt 0 b with hb | hb
    · rw [ctrunc_eq_ceil a (le_of_lt ha), ctrunc_eq_floor b hb]
      have h1 : ⌈a⌉ ≤ 0 := Int.ceil_le.mpr (by exact_mod_cast le_of_lt ha)
      have h2 : 0 ≤ ⌊b⌋ := Int.le_floor.mpr (by exact_mod_cast hb)
      omega
    · rw [ctrunc_eq_ceil a (le_of_lt ha), ctrunc_eq_ceil b (le_of_lt hb)]
      exact Int.ceil_le_ceil h

/-- C struct `vpipe`: gap-center height fraction and center column. -/
structure vpipe where
  opening_height : ℚ
  center : ℤ

/-- C struct `flappy`: reference height at last boost and ticks since then. -/
structure flappy where
  h0 : ℤ
  t : ℤ

/-- Source `get_orow`: row of the top (resp. bottom) edge of the pipe opening,
`p.opening_height * (NUM_ROWS - 1) - (top ? 1 : -1) * OPENING_WIDTH / 2`
where the `(top ? 1 : -1) * OPENING_WIDTH / 2` part is C int arithmetic. -/
def get_orow (p : vpipe) (top : Bool) : ℤ :=
  ctrunc (p.opening_height * ((NUM_ROWS : ℚ) - 1) -
    ((Int.tdiv ((if top then 1 else -1) * OPENING_WIDTH) 2 : ℤ) : ℚ))

/-- Source `get_flappy_position`: `f.h0 + V0 * f.t + 0.5 * GRAV * f.t * f.t`,
truncated to int. -/
def get_flappy_position (f : flappy) : ℤ :=
  ctrunc ((f.h0 : ℚ) + V0 * (f.t : ℚ) + (1/2) * GRAV * (f.t : ℚ) * (f.t : ℚ))

/-- Source `crashed_into_pipe`: horizontal band test, then gap-interior test. -/
def crashed_into_pipe (f : flappy) (p : vpipe) : Bool :=
  if FLAPPY_COL ≥ p.center - PIPE_RADIUS - 1 ∧ FLAPPY_COL ≤ p.center + PIPE_RADIUS + 1 then
    if get_flappy_position f ≥ get_orow p true + 1 ∧
        get_flappy_position f ≤ get_orow p false - 1 then
      false
    else
      true
  else
    false

/-- Ceiling/floor test at the top of source `draw_flappy`:
`h <= 0 || h >= NUM_ROWS - 1` for `h = get_flappy_position(f)`. -/
def boundary_collision (f : flappy) : Bool :=
  decide (get_flappy_position f ≤ 0) || decide (get_flappy_position f ≥ NUM_ROWS - 1)

/-- Failure decision of source `draw_flappy`: boundary hit or either pipe hit. -/
def draw_flappy_fails (f : flappy) (q1 q2 : vpipe) : Bool :=
  boundary_collision f || crashed_into_pipe f q1 || crashed_into_pipe f q2

/-- The global counters of the source: `score`, `sdigs`, `best_score`, `bdigs`. -/
structure Globals where
  score : ℤ
  sdigs : ℤ
  best_score : ℤ
  bdigs : ℤ

/-- Digit-width bump shared by `pipe_refresh` (on `sdigs`/`score`) and
`failure_screen` (on `bdigs`/`best_score`):
`if (d == 1 && v > 9) d++; else if (d == 2 && v > 99) d++;`. -/
def upd_digs (d v : ℤ) : ℤ :=
  if d = 1 ∧ v > 9 then d + 1
  else if d = 2 ∧ v > 99 then d + 1
  else d

/-- Opening-height draw `rand() / ((float) INT_MAX) * 0.5 + 0.25` with the
`rand()` result passed in as `r`. -/
def rand_frac (r : ℤ) : ℚ := (r : ℚ) / (INT_MAX : ℚ) * (1/2) + 1/4

/-- Source `pipe_refresh`: recycle the pipe when it is fully off screen left
(bumping score and the score digit width), then decrement the center column.
The source's trailing `p->center--` runs in both branches, so the recycle
branch lands on `NUM_COLS + PIPE_RADIUS - 1`. -/
def pipe_refresh (r : ℤ) (p : vpipe) (g : Globals) : vpipe × Globals :=
  if p.center + PIPE_RADIUS < 0 then
    ({ opening_height := rand_frac r, center := NUM_COLS + PIPE_RADIUS - 1 },
     { g with score := g.score + 1, sdigs := upd_digs g.sdigs (g.score + 1) })
  else
    ({ p with center := p.center - 1 }, g)

/-- Result of the failure screen: the process exits, or the game restarts. -/
inductive FailResult where
  | exited (g : Globals)
  | restart (g : Globals)

/-- Source `failure_screen` on keypress `ch` (113 is the quit key, C char `q`):
quit exits with the globals untouched; any other key commits `score` into
`best_score` when larger, bumps `bdigs`, and resets `score`/`sdigs`. -/
def failure_screen (ch : ℤ) (g : Globals) : FailResult :=
  if ch = 113 then FailResult.exited g
  else
    let best : ℤ := if g.score > g.best_score then g.score else g.best_score
    FailResult.restart
      { score := 0, sdigs := 1, best_score := best, bdigs := upd_digs g.bdigs best }

/-- Initial center of pipe 1 in main's restart block: `(int)(1.2 * (NUM_COLS - 1))`. -/
def init_p1_center : ℤ := ctrunc ((6/5 : ℚ) * ((NUM_COLS : ℚ) - 1))

/-- Initial center of pipe 2 in main's restart block: `(int)(1.75 * (NUM_COLS - 1))`. -/
def init_p2_center : ℤ := ctrunc ((7/4 : ℚ) * ((NUM_COLS : ℚ) - 1))

/-- Refinement comparison only: the spec's words place the initial centers at
1.2 and 1.75 times the playfield width, which the spec fixes at `NUM_COLS = 80`. -/
def spec_p1_center : ℤ := ctrunc ((6/5 : ℚ) * (NUM_COLS : ℚ))

/-- Refinement comparison only: spec's-words value for pipe 2, see `spec_p1_center`. -/
def spec_p2_center : ℤ := ctrunc ((7/4 : ℚ) * (NUM_COLS : ℚ))

/-- Static initialization of the globals in the source. -/
def init_globals : Globals := { score := 0, sdigs := 1, best_score := 0, bdigs := 1 }

/-- Full state of one frame of the game loop. -/
structure GameState where
  g : Globals
  p1 : vpipe
  p2 : vpipe
  f : flappy

/-- Restart block of `main`: pipes placed off screen right with fresh opening
heights, flier reset to mid screen with zero elapsed ticks. -/
def restart_state (g : Globals) (r1 r2 : ℤ) : GameState :=
  { g := g,
    p1 := { opening_height := rand_frac r1, center := init_p1_center },
    p2 := { opening_height := rand_frac r2, center := init_p2_center },
    f := { h0 := NUM_ROWS / 2, t := 0 } }

/-- Result of one main-loop iteration: process exit or a successor state. -/
inductive StepResult where
  | exit (final : Globals)
  | cont (gs : GameState)

/-- One iteration of the main loop: key handling (113 quits, 259 is `KEY_UP`),
both pipe refreshes, then the flier draw, which performs collision detection
against the already-advanced pipes and, on failure, runs the failure screen on
key `failKey` (restarting reinitializes pipes and flier). -/
def frame_step (key failKey r1 r2 nr1 nr2 : ℤ) (gs : GameState) : StepResult :=
  if key = 113 then StepResult.exit gs.g
  else
    let f : flappy :=
      if key = 259 then { h0 := get_flappy_position gs.f, t := 0 }
      else { h0 := gs.f.h0, t := gs.f.t + 1 }
    let pr1 := pipe_refresh r1 gs.p1 gs.g
    let pr2 := pipe_refresh r2 gs.p2 pr1.2
    if draw_flappy_fails f pr1.1 pr2.1 then
      match failure_screen failKey pr2.2 with
      | FailResult.exited gf => StepResult.exit gf
      | FailResult.restart gr => StepResult.cont (restart_state gr nr1 nr2)
    else
      StepResult.cont { g := pr2.2, p1 := pr1.1, p2 := pr2.1, f := f }

/-- Game states reachable from program start, for any key and `rand()` inputs. -/
inductive Reachable : GameState → Prop where
  | start (r1 r2 : ℤ) : Reachable (restart_state init_globals r1 r2)
  | step {gs gs' : GameState} (key failKey r1 r2 nr1 nr2 : ℤ) :
      Reachable gs → frame_step key failKey r1 r2 nr1 nr2 gs = StepResult.cont gs' →
      Reachable gs'

/-- Evaluation helper: the flier position equals the floor of the exact
parabola value whenever that value is nonnegative. -/
theorem get_flappy_position_eval (h0 t n : ℤ)
    (hq : 0 ≤ (h0 : ℚ) + V0 * (t : ℚ) + (1/2) * GRAV * (t : ℚ) * (t : ℚ))
    (h : ⌊(h0 : ℚ) + V0 * (t : ℚ) + (1/2) * GRAV * (t : ℚ) * (t : ℚ)⌋ = n) :
    get_flappy_position { h0 := h0, t := t } = n := by
  rw [get_flappy_position, ctrunc_eq_floor _ hq, h]

/-- C1: `crashed_into_pipe` returns true exactly when the flier column lies in
the band `[center - PIPE_RADIUS - 1, center + PIPE_RADIUS + 1]` and the flier
row is outside the interior `[gap top + 1, gap bottom - 1]`; outside the band
the result is false regardless of the row. -/
theorem crashed_into_pipe_spec (f : flappy) (p : vpipe) :
    (crashed_into_pipe f p = true ↔
      ((p.center - PIPE_RADIUS - 1 ≤ FLAPPY_COL ∧ FLAPPY_COL ≤ p.center + PIPE_RADIUS + 1) ∧
        ¬ (get_orow p true + 1 ≤ get_flappy_position f ∧
            get_flappy_position f ≤ get_orow p false - 1))) ∧
    (¬ (p.center - PIPE_RADIUS - 1 ≤ FLAPPY_COL ∧ FLAPPY_COL ≤ p.center + PIPE_RADIUS + 1) →
      crashed_into_pipe f p = false) := by
  unfold crashed_into_pipe
  constructor
  · split_ifs with h1 h2 <;> simp_all [ge_iff_le]
  · intro hout
    split_ifs with h1 h2 <;> simp_all [ge_iff_le]

theorem crashed_into_pipe_spec_witness :
    crashed_into_pipe { h0 := 12, t := 0 } { opening_height := 1/2, center := 40 } = false :=
  (crashed_into_pipe_spec { h0 := 12, t := 0 } { opening_height := 1/2, center := 40 }).2
    (by decide)

/-- C2: boosting (setting the reference height to the currently computed
position and resetting the tick count to 0) leaves the computed position
unchanged at the boost instant. -/
theorem boost_continuity (h0 t : ℤ) (ht : 0 ≤ t) :
    get_flappy_position { h0 := get_flappy_position { h0 := h0, t := t }, t := 0 } =
      get_flappy_position { h0 := h0, t := t } := by
  have h : ∀ n : ℤ, get_flappy_position { h0 := n, t := 0 } = n := by
    intro n
    rw [get_flappy_position]
    simp [ctrunc_intCast]
  exact h _

theorem boost_continuity_witness :
    get_flappy_position { h0 := get_flappy_position { h0 := 12, t := 7 }, t := 0 } =
      get_flappy_position { h0 := 12, t := 7 } :=
  boost_continuity 12 7 (by decide)

/-- C4: the boundary test of `draw_flappy` fires exactly when the computed row
is at most 0 or at least `NUM_ROWS - 1`; on rows 1 through `NUM_ROWS - 2` it
never fires, and the overall failure decision reduces to the two pipe tests,
regardless of the state of either obstacle. -/
theorem boundary_collision_spec (f : flappy) (q1 q2 : vpipe) :
    (boundary_collision f = true ↔
      (get_flappy_position f ≤ 0 ∨ NUM_ROWS - 1 ≤ get_flappy_position f)) ∧
    (1 ≤ get_flappy_position f → get_flappy_position f ≤ NUM_ROWS - 2 →
      boundary_collision f = false ∧
      draw_flappy_fails f q1 q2 = (crashed_into_pipe f q1 || crashed_into_pipe f q2)) := by
  refine ⟨by simp [boundary_collision, ge_iff_le], ?_⟩
  intro hlo hhi
  have hb : boundary_collision f = false := by
    simp only [boundary_collision, NUM_ROWS] at *
    simp only [Bool.or_eq_false_iff, decide_eq_false_iff_not, ge_iff_le]
    omega
  rw [draw_flappy_fails, hb]
  exact ⟨rfl, by simp⟩

theorem boundary_collision_spec_witness :
    boundary_collision { h0 := 12, t := 0 } = false ∧
    draw_flappy_fails { h0 := 12, t := 0 } { opening_height := 1/2, center := 40 }
        { opening_height := 1/2, center := 60 } =
      (crashed_into_pipe { h0 := 12, t := 0 } { opening_height := 1/2, center := 40 } ||
        crashed_into_pipe { h0 := 12, t := 0 } { opening_height := 1/2, center := 60 }) :=
  (boundary_collision_spec { h0 := 12, t := 0 } { opening_height := 1/2, center := 40 }
      { opening_height := 1/2, center := 60 }).2
    (by simp [get_flappy_position_eval 12 0 12 (by norm_num) (by norm_num)])
    (by simp [get_flappy_position_eval 12 0 12 (by norm_num) (by norm_num), NUM_ROWS])

/-- C5 (amended): once `GRAV*t + V0 > 0` the computed row is non-decreasing
tick to tick; while `GRAV*t + V0 < 0` (before the apex) it is non-increasing
tick to tick (not strictly decreasing: the truncated row can repeat); the apex
of the exact parabola is at `t = -V0/GRAV = 10`. -/
theorem flappy_position_monotone (h0 t : ℤ) (ht : 0 ≤ t) :
    (GRAV * (t : ℚ) + V0 > 0 →
      get_flappy_position { h0 := h0, t := t } ≤
        get_flappy_position { h0 := h0, t := t + 1 }) ∧
    (GRAV * (t : ℚ) + V0 < 0 →
      get_flappy_position { h0 := h0, t := t + 1 } ≤
        get_flappy_position { h0 := h0, t := t }) ∧
    -V0 / GRAV = 10 := by
  refine ⟨?_, ?_, by norm_num [GRAV, V0]⟩
  · intro hup
    apply ctrunc_mono
    simp only [GRAV, V0] at hup ⊢
    push_cast
    ring_nf
    ring_nf at hup
    nlinarith [hup]
  · intro hdn
    have hx : (t : ℚ) < 10 := by simp only [GRAV, V0] at hdn; linarith
    have ht10 : t < 10 := by exact_mod_cast hx
    have hx9 : (t : ℚ) ≤ 9 := by exact_mod_cast (by omega : t ≤ 9)
    apply ctrunc_mono
    simp only [GRAV, V0]
    push_cast
    ring_nf
    nlinarith [hx9]

theorem flappy_position_monotone_witness :
    (GRAV * ((11 : ℤ) : ℚ) + V0 > 0 →
      get_flappy_position { h0 := 12, t := 11 } ≤
        get_flappy_position { h0 := 12, t := 11 + 1 }) ∧
    (GRAV * ((11 : ℤ) : ℚ) + V0 < 0 →
      get_flappy_position { h0 := 12, t := 11 + 1 } ≤
        get_flappy_position { h0 := 12, t := 11 }) ∧
    -V0 / GRAV = 10 :=
  flappy_position_monotone 12 11 (by decide)

/-- C5 counterexample: from the start height 12, ticks 1 and 2 are both before
the apex (`GRAV*t + V0 < 0`) yet the computed row stays at 11, so the position
is not strictly decreasing on the ascent. -/
theorem flappy_position_plateau :
    GRAV * ((1 : ℤ) : ℚ) + V0 < 0 ∧ GRAV * ((2 : ℤ) : ℚ) + V0 < 0 ∧
    get_flappy_position { h0 := 12, t := 1 } = 11 ∧
    get_flappy_position { h0 := 12, t := 2 } = 11 := by
  refine ⟨by norm_num [GRAV, V0], by norm_num [GRAV, V0], ?_, ?_⟩
  · exact get_flappy_position_eval 12 1 11 (by norm_num [GRAV, V0]) (by norm_num [GRAV, V0])
  · exact get_flappy_position_eval 12 2 11 (by norm_num [GRAV, V0]) (by norm_num [GRAV, V0])

theorem quarter_le_half : (1/4 : ℚ) ≤ 1/2 := by norm_num

theorem half_le_three_quarters : (1/2 : ℚ) ≤ 3/4 := by norm_num

/-- Gap edges in closed form: for an opening height of at least 1/4 the two
`get_orow` values are the floor of `opening_height * (NUM_ROWS - 1)` shifted
down and up by `OPENING_WIDTH / 2 = 3`. -/
theorem get_orow_eq (p : vpipe) (h1 : 1/4 ≤ p.opening_height) :
    get_orow p true = ⌊p.opening_height * ((NUM_ROWS : ℚ) - 1)⌋ - 3 ∧
    get_orow p false = ⌊p.opening_height * ((NUM_ROWS : ℚ) - 1)⌋ + 3 := by
  have hx : (23 : ℚ)/4 ≤ p.opening_height * ((NUM_ROWS : ℚ) - 1) := by
    have := mul_le_mul_of_nonneg_right h1 (by norm_num [NUM_ROWS] : (0:ℚ) ≤ (NUM_ROWS : ℚ) - 1)
    calc (23 : ℚ)/4 = 1/4 * ((NUM_ROWS : ℚ) - 1) := by norm_num [NUM_ROWS]
    _ ≤ _ := this
  constructor
  · rw [get_orow, show Int.tdiv ((if (true : Bool) then 1 else -1) * OPENING_WIDTH) 2 = 3 by decide]
    rw [show ((3 : ℤ) : ℚ) = (3 : ℚ) by norm_num]
    rw [ctrunc_eq_floor _ (by linarith)]
    rw [show (3 : ℚ) = ((3 : ℤ) : ℚ) by norm_num, Int.floor_sub_int]
  · rw [get_orow, show Int.tdiv ((if (false : Bool) then 1 else -1) * OPENING_WIDTH) 2 = -3 by decide]
    rw [show ((-3 : ℤ) : ℚ) = (-3 : ℚ) by norm_num]
    rw [ctrunc_eq_floor _ (by linarith), sub_neg_eq_add]
    rw [show (3 : ℚ) = ((3 : ℤ) : ℚ) by norm_num, Int.floor_add_int]

/-- C9: for every opening height the generator can produce (any value in
`[1/4, 3/4]`), the gap bottom row minus the gap top row is exactly 6, the
interior `[top+1, bottom-1]` holds exactly 5 safe rows, and both edges lie
strictly between the ceiling row 0 and the floor row `NUM_ROWS - 1`. -/
theorem gap_geometry (p : vpipe) (h1 : 1/4 ≤ p.opening_height)
    (h2 : p.opening_height ≤ 3/4) :
    get_orow p false - get_orow p true = 6 ∧
    (Finset.Icc (get_orow p true + 1) (get_orow p false - 1)).card = 5 ∧
    0 < get_orow p true ∧
    get_orow p false < NUM_ROWS - 1 := by
  obtain ⟨e1, e0⟩ := get_orow_eq p h1
  have hxlo : (5 : ℚ) ≤ p.opening_height * ((NUM_ROWS : ℚ) - 1) := by
    have := mul_le_mul_of_nonneg_right h1 (by norm_num [NUM_ROWS] : (0:ℚ) ≤ (NUM_ROWS : ℚ) - 1)
    have h23 : (1 : ℚ)/4 * ((NUM_ROWS : ℚ) - 1) = 23/4 := by norm_num [NUM_ROWS]
    linarith [this, h23.le]
  have hxhi : p.opening_height * ((NUM_ROWS : ℚ) - 1) < 18 := by
    have := mul_le_mul_of_nonneg_right h2 (by norm_num [NUM_ROWS] : (0:ℚ) ≤ (NUM_ROWS : ℚ) - 1)
    have h69 : (3 : ℚ)/4 * ((NUM_ROWS : ℚ) - 1) = 69/4 := by norm_num [NUM_ROWS]
    linarith
  have hflo : (5 : ℤ) ≤ ⌊p.opening_height * ((NUM_ROWS : ℚ) - 1)⌋ :=
    Int.le_floor.mpr (by exact_mod_cast hxlo)
  have hfhi : ⌊p.opening_height * ((NUM_ROWS : ℚ) - 1)⌋ < 18 :=
    Int.floor_lt.mpr (by exact_mod_cast hxhi)
  refine ⟨by omega, ?_, by omega, by simp only [NUM_ROWS]; omega⟩
  rw [e1, e0, Int.card_Icc]
  omega

theorem gap_geometry_witness :
    get_orow { opening_height := 1/2, center := 0 } false -
        get_orow { opening_height := 1/2, center := 0 } true = 6 ∧
    (Finset.Icc (get_orow { opening_height := 1/2, center := 0 } true + 1)
        (get_orow { opening_height := 1/2, center := 0 } false - 1)).card = 5 ∧
    0 < get_orow { opening_height := 1/2, center := 0 } true ∧
    get_orow { opening_height := 1/2, center := 0 } false < NUM_ROWS - 1 :=
  gap_geometry { opening_height := 1/2, center := 0 } quarter_le_half half_le_three_quarters

/-- C3 counterexample: when `rand()` returns `RAND_MAX = INT_MAX`, the redrawn
opening height is exactly 3/4, which is not inside the half-open `[1/4, 3/4)`
that the claim states. -/
theorem pipe_refresh_gap_upper_bound_attained :
    (pipe_refresh INT_MAX { opening_height := 1/2, center := -4 } init_globals).1.opening_height
        = 3/4 ∧
    ¬ ((pipe_refresh INT_MAX { opening_height := 1/2, center := -4 }
          init_globals).1.opening_height < 3/4) := by
  have h : (pipe_refresh INT_MAX { opening_height := 1/2, center := -4 }
      init_globals).1.opening_height = 3/4 := by
    rw [pipe_refresh, if_pos (by decide)]
    show rand_frac INT_MAX = 3/4
    rw [rand_frac, INT_MAX]
    norm_num
  exact ⟨h, by rw [h]; exact lt_irrefl _⟩

/-- C3 (amended): recycling an obstacle whose center column is
`-PIPE_RADIUS - 1` puts the center at `NUM_COLS + PIPE_RADIUS - 1`, redraws the
opening height inside the closed interval `[1/4, 3/4]` (the right endpoint is
attained when `rand()` returns `RAND_MAX`), and increments the score by
exactly 1. -/
theorem pipe_refresh_recycle (r : ℤ) (p : vpipe) (g : Globals)
    (hr0 : 0 ≤ r) (hr1 : r ≤ INT_MAX) (hc : p.center = -PIPE_RADIUS - 1) :
    (pipe_refresh r p g).1.center = NUM_COLS + PIPE_RADIUS - 1 ∧
    1/4 ≤ (pipe_refresh r p g).1.opening_height ∧
    (pipe_refresh r p g).1.opening_height ≤ 3/4 ∧
    (pipe_refresh r p g).2.score = g.score + 1 := by
  have hcond : p.center + PIPE_RADIUS < 0 := by
    rw [hc]
    simp only [PIPE_RADIUS]
    omega
  rw [pipe_refresh, if_pos hcond]
  have hq0 : (0 : ℚ) ≤ (r : ℚ) / (INT_MAX : ℚ) := by
    apply div_nonneg
    · exact_mod_cast hr0
    · norm_num [INT_MAX]
  have hq1 : (r : ℚ) / (INT_MAX : ℚ) ≤ 1 := by
    rw [div_le_one (by norm_num [INT_MAX])]
    exact_mod_cast hr1
  refine ⟨rfl, ?_, ?_, rfl⟩
  · show 1/4 ≤ rand_frac r
    rw [rand_frac]
    linarith
  · show rand_frac r ≤ 3/4
    rw [rand_frac]
    linarith

theorem pipe_refresh_recycle_witness :
    (pipe_refresh 0 { opening_height := 1/2, center := -4 } init_globals).1.center
        = NUM_COLS + PIPE_RADIUS - 1 ∧
    1/4 ≤ (pipe_refresh 0 { opening_height := 1/2, center := -4 }
            init_globals).1.opening_height ∧
    (pipe_refresh 0 { opening_height := 1/2, center := -4 }
        init_globals).1.opening_height ≤ 3/4 ∧
    (pipe_refresh 0 { opening_height := 1/2, center := -4 } init_globals).2.score
        = init_globals.score + 1 :=
  pipe_refresh_recycle 0 { opening_height := 1/2, center := -4 } init_globals
    (by decide) (by decide) (by decide)

/-- C6: in one recycling `pipe_refresh` call, a score transition 9 to 10 bumps
`sdigs` from 1 to 2, a transition 99 to 100 bumps it from 2 to 3, and once
`sdigs` is 3 no rule raises it further no matter the score. -/
theorem digit_width_upgrade (r : ℤ) (p : vpipe) (g : Globals)
    (hc : p.center + PIPE_RADIUS < 0) :
    (g.score = 9 → g.sdigs = 1 →
      (pipe_refresh r p g).2.score = 10 ∧ (pipe_refresh r p g).2.sdigs = 2) ∧
    (g.score = 99 → g.sdigs = 2 →
      (pipe_refresh r p g).2.score = 100 ∧ (pipe_refresh r p g).2.sdigs = 3) ∧
    (g.sdigs = 3 → (pipe_refresh r p g).2.sdigs = 3) := by
  rw [pipe_refresh, if_pos hc]
  refine ⟨?_, ?_, ?_⟩
  · intro hs hd
    exact ⟨by simp [hs], by simp [upd_digs, hs, hd]⟩
  · intro hs hd
    exact ⟨by simp [hs], by simp [upd_digs, hs, hd]⟩
  · intro hd
    show upd_digs g.sdigs (g.score + 1) = 3
    simp [upd_digs, hd]

theorem digit_width_upgrade_witness :
    ((⟨9, 1, 0, 1⟩ : Globals).score = 9 → (⟨9, 1, 0, 1⟩ : Globals).sdigs = 1 →
      (pipe_refresh 0 { opening_height := 1/2, center := -5 } ⟨9, 1, 0, 1⟩).2.score = 10 ∧
      (pipe_refresh 0 { opening_height := 1/2, center := -5 } ⟨9, 1, 0, 1⟩).2.sdigs = 2) ∧
    ((⟨9, 1, 0, 1⟩ : Globals).score = 99 → (⟨9, 1, 0, 1⟩ : Globals).sdigs = 2 →
      (pipe_refresh 0 { opening_height := 1/2, center := -5 } ⟨9, 1, 0, 1⟩).2.score = 100 ∧
      (pipe_refresh 0 { opening_height := 1/2, center := -5 } ⟨9, 1, 0, 1⟩).2.sdigs = 3) ∧
    ((⟨9, 1, 0, 1⟩ : Globals).sdigs = 3 →
      (pipe_refresh 0 { opening_height := 1/2, center := -5 } ⟨9, 1, 0, 1⟩).2.sdigs = 3) :=
  digit_width_upgrade 0 { opening_height := 1/2, center := -5 } ⟨9, 1, 0, 1⟩ (by decide)

/-- C7: in the failed state, the quit key (113) exits with the globals, hence
`best_score`, untouched even when the current score is higher; any other key
commits the current score into `best_score`. -/
theorem quit_preserves_best (g : Globals) (h : g.best_score < g.score) :
    failure_screen 113 g = FailResult.exited g ∧
    (∀ ch : ℤ, ch ≠ 113 →
      failure_screen ch g =
        FailResult.restart
          { score := 0, sdigs := 1, best_score := g.score,
            bdigs := upd_digs g.bdigs g.score }) := by
  constructor
  · rw [failure_screen, if_pos rfl]
  · intro ch hch
    rw [failure_screen, if_neg hch]
    simp only [gt_iff_lt, if_pos h]

theorem quit_preserves_best_witness :
    failure_screen 113 ⟨5, 1, 2, 1⟩ = FailResult.exited ⟨5, 1, 2, 1⟩ ∧
    (∀ ch : ℤ, ch ≠ 113 →
      failure_screen ch ⟨5, 1, 2, 1⟩ =
        FailResult.restart
          { score := 0, sdigs := 1, best_score := (⟨5, 1, 2, 1⟩ : Globals).score,
            bdigs := upd_digs (⟨5, 1, 2, 1⟩ : Globals).bdigs (⟨5, 1, 2, 1⟩ : Globals).score }) :=
  quit_preserves_best ⟨5, 1, 2, 1⟩ (by decide)

/-- C8 counterexample: the source initializes pipe 1's center to
`(int)(1.2 * (NUM_COLS - 1)) = 94`, not at 1.2 times the playfield width
`NUM_COLS = 80`, which would be 96; likewise pipe 2 gets 138, not 140. -/
theorem init_centers_vs_spec :
    (restart_state init_globals 0 0).p1.center = 94 ∧ spec_p1_center = 96 ∧
    (restart_state init_globals 0 0).p2.center = 138 ∧ spec_p2_center = 140 ∧
    (restart_state init_globals 0 0).p1.center ≠ spec_p1_center ∧
    (restart_state init_globals 0 0).p2.center ≠ spec_p2_center := by
  have h1 : init_p1_center = 94 := by
    rw [init_p1_center, ctrunc_eq_floor _ (by norm_num [NUM_COLS])]
    norm_num [NUM_COLS]
  have h2 : init_p2_center = 138 := by
    rw [init_p2_center, ctrunc_eq_floor _ (by norm_num [NUM_COLS])]
    norm_num [NUM_COLS]
  have s1 : spec_p1_center = 96 := by
    rw [spec_p1_center, ctrunc_eq_floor _ (by norm_num [NUM_COLS])]
    norm_num [NUM_COLS]
  have s2 : spec_p2_center = 140 := by
    rw [spec_p2_center, ctrunc_eq_floor _ (by norm_num [NUM_COLS])]
    norm_num [NUM_COLS]
  refine ⟨h1, s1, h2, s2, ?_, ?_⟩ <;> simp [restart_state, h1, h2, s1, s2]

/-- C8 (amended): at game start and on every restart the two pipes are created
with centers `(int)(1.2 * (NUM_COLS - 1)) = 94` and
`(int)(1.75 * (NUM_COLS - 1)) = 138`, both off screen right
(`center >= NUM_COLS`). -/
theorem init_centers_offscreen (g : Globals) (r1 r2 : ℤ) :
    (restart_state g r1 r2).p1.center = ctrunc ((6/5 : ℚ) * ((NUM_COLS : ℚ) - 1)) ∧
    (restart_state g r1 r2).p2.center = ctrunc ((7/4 : ℚ) * ((NUM_COLS : ℚ) - 1)) ∧
    (restart_state g r1 r2).p1.center = 94 ∧
    (restart_state g r1 r2).p2.center = 138 ∧
    NUM_COLS ≤ (restart_state g r1 r2).p1.center ∧
    NUM_COLS ≤ (restart_state g r1 r2).p2.center := by
  have h1 : init_p1_center = 94 := by
    rw [init_p1_center, ctrunc_eq_floor _ (by norm_num [NUM_COLS])]
    norm_num [NUM_COLS]
  have h2 : init_p2_center = 138 := by
    rw [init_p2_center, ctrunc_eq_floor _ (by norm_num [NUM_COLS])]
    norm_num [NUM_COLS]
  refine ⟨rfl, rfl, ?_, ?_, ?_, ?_⟩ <;>
    simp [restart_state, h1, h2, NUM_COLS]

theorem upd_digs_ge (d v : ℤ) : d ≤ upd_digs d v := by
  rw [upd_digs]
  split_ifs <;> omega

theorem upd_digs_mem (d v : ℤ) (h : d = 1 ∨ d = 2 ∨ d = 3) :
    upd_digs d v = 1 ∨ upd_digs d v = 2 ∨ upd_digs d v = 3 := by
  rw [upd_digs]
  split_ifs <;> omega

theorem pipe_refresh_digs (r : ℤ) (p : vpipe) (g : Globals) :
    ((g.sdigs = 1 ∨ g.sdigs = 2 ∨ g.sdigs = 3) →
      ((pipe_refresh r p g).2.sdigs = 1 ∨ (pipe_refresh r p g).2.sdigs = 2 ∨
        (pipe_refresh r p g).2.sdigs = 3)) ∧
    (pipe_refresh r p g).2.bdigs = g.bdigs := by
  rw [pipe_refresh]
  split_ifs
  · exact ⟨fun h => upd_digs_mem _ _ h, rfl⟩
  · exact ⟨fun h => h, rfl⟩

theorem failure_screen_restart_form (ch : ℤ) (g g' : Globals)
    (h : failure_screen ch g = FailResult.restart g') :
    g'.sdigs = 1 ∧ g.bdigs ≤ g'.bdigs ∧
    ((g.bdigs = 1 ∨ g.bdigs = 2 ∨ g.bdigs = 3) →
      (g'.bdigs = 1 ∨ g'.bdigs = 2 ∨ g'.bdigs = 3)) := by
  rw [failure_screen] at h
  split_ifs at h
  all_goals
    simp only [FailResult.restart.injEq] at h
  all_goals
    subst h
  all_goals
    exact ⟨rfl, upd_digs_ge _ _, fun hb => upd_digs_mem _ _ hb⟩

theorem frame_step_cont_globals (key failKey r1 r2 nr1 nr2 : ℤ) (gs gs' : GameState)
    (h : frame_step key failKey r1 r2 nr1 nr2 gs = StepResult.cont gs') :
    ((gs.g.sdigs = 1 ∨ gs.g.sdigs = 2 ∨ gs.g.sdigs = 3) →
      (gs'.g.sdigs = 1 ∨ gs'.g.sdigs = 2 ∨ gs'.g.sdigs = 3)) ∧
    ((gs.g.bdigs = 1 ∨ gs.g.bdigs = 2 ∨ gs.g.bdigs = 3) →
      (gs'.g.bdigs = 1 ∨ gs'.g.bdigs = 2 ∨ gs'.g.bdigs = 3)) ∧
    gs.g.bdigs ≤ gs'.g.bdigs := by
  have H1 := pipe_refresh_digs r1 gs.p1 gs.g
  have H2 := pipe_refresh_digs r2 gs.p2 (pipe_refresh r1 gs.p1 gs.g).2
  have Hb : (pipe_refresh r2 gs.p2 (pipe_refresh r1 gs.p1 gs.g).2).2.bdigs = gs.g.bdigs :=
    H2.2.trans H1.2
  simp only [frame_step] at h
  split at h
  · exact absurd h (by simp)
  · generalize (if key = 259 then ({ h0 := get_flappy_position gs.f, t := 0 } : flappy)
        else { h0 := gs.f.h0, t := gs.f.t + 1 }) = f0 at h
    split at h
    · rcases hfs : failure_screen failKey (pipe_refresh r2 gs.p2 (pipe_refresh r1 gs.p1 gs.g).2).2
          with gf | gr
      · rw [hfs] at h
        exact absurd h (by simp)
      · rw [hfs] at h
        simp only [StepResult.cont.injEq] at h
        subst h
        obtain ⟨hs1, hb1, hbm⟩ := failure_screen_restart_form _ _ _ hfs
        refine ⟨fun _ => Or.inl hs1, fun hb => hbm (by rw [Hb]; exact hb), ?_⟩
        show gs.g.bdigs ≤ gr.bdigs
        calc gs.g.bdigs = (pipe_refresh r2 gs.p2 (pipe_refresh r1 gs.p1 gs.g).2).2.bdigs := Hb.symm
        _ ≤ gr.bdigs := hb1
    · simp only [StepResult.cont.injEq] at h
      subst h
      refine ⟨fun hs => H2.1 (H1.1 hs), fun hb => ?_, ?_⟩
      · show (pipe_refresh r2 gs.p2 (pipe_refresh r1 gs.p1 gs.g).2).2.bdigs = 1 ∨
            (pipe_refresh r2 gs.p2 (pipe_refresh r1 gs.p1 gs.g).2).2.bdigs = 2 ∨
            (pipe_refresh r2 gs.p2 (pipe_refresh r1 gs.p1 gs.g).2).2.bdigs = 3
        rw [Hb]
        exact hb
      · show gs.g.bdigs ≤ (pipe_refresh r2 gs.p2 (pipe_refresh r1 gs.p1 gs.g).2).2.bdigs
        rw [Hb]

/-- C10: in every reachable game state the two digit-width counters lie in
{1, 2, 3} no matter how large the scores grow; every restart out of the
failure screen resets `sdigs` to 1; and `bdigs` never decreases across any
loop step. -/
theorem digit_width_invariant (gs : GameState) (h : Reachable gs) :
    (gs.g.sdigs = 1 ∨ gs.g.sdigs = 2 ∨ gs.g.sdigs = 3) ∧
    (gs.g.bdigs = 1 ∨ gs.g.bdigs = 2 ∨ gs.g.bdigs = 3) ∧
    (∀ ch g', failure_screen ch gs.g = FailResult.restart g' → g'.sdigs = 1) ∧
    (∀ key failKey r1 r2 nr1 nr2 gs',
      frame_step key failKey r1 r2 nr1 nr2 gs = StepResult.cont gs' →
      gs.g.bdigs ≤ gs'.g.bdigs) := by
  have inv : (gs.g.sdigs = 1 ∨ gs.g.sdigs = 2 ∨ gs.g.sdigs = 3) ∧
      (gs.g.bdigs = 1 ∨ gs.g.bdigs = 2 ∨ gs.g.bdigs = 3) := by
    induction h with
    | start r1 r2 => exact ⟨Or.inl rfl, Or.inl rfl⟩
    | step key failKey r1 r2 nr1 nr2 hr hstep ih =>
        obtain ⟨hs, hb⟩ := ih
        have hball := frame_step_cont_globals _ _ _ _ _ _ _ _ hstep
        exact ⟨hball.1 hs, hball.2.1 hb⟩
  refine ⟨inv.1, inv.2, ?_, ?_⟩
  · intro ch g' hfs
    exact (failure_screen_restart_form _ _ _ hfs).1
  · intro key failKey r1 r2 nr1 nr2 gs' hstep
    exact (frame_step_cont_globals _ _ _ _ _ _ _ _ hstep).2.2

theorem digit_width_invariant_witness :
    ((restart_state init_globals 0 0).g.sdigs = 1 ∨
      (restart_state init_globals 0 0).g.sdigs = 2 ∨
      (restart_state init_globals 0 0).g.sdigs = 3) ∧
    ((restart_state init_globals 0 0).g.bdigs = 1 ∨
      (restart_state init_globals 0 0).g.bdigs = 2 ∨
      (restart_state init_globals 0 0).g.bdigs = 3) ∧
    (∀ ch g', failure_screen ch (restart_state init_globals 0 0).g = FailResult.restart g' →
      g'.sdigs = 1) ∧
    (∀ key failKey r1 r2 nr1 nr2 gs',
      frame_step key failKey r1 r2 nr1 nr2 (restart_state init_globals 0 0) =
        StepResult.cont gs' →
      (restart_state init_globals 0 0).g.bdigs ≤ gs'.g.bdigs) :=
  digit_width_invariant (restart_state init_globals 0 0) (Reachable.start 0 0)
